import Mathlib

/-!
Shallow embedding of the CHIP-8 emulator sources (`src/chip8/src/main.rs`,
`src/chip8/src/timer.rs`, `src/chip8/src/display.rs`).

Machine integers are embedded as `Nat` carrying the width as a side
condition (`u8` values are `< 256`, `u16` values are `< 65536`); wrapping
arithmetic is written with an explicit `% 2^w`.  Bit masks on bytes are
embedded arithmetically: for a byte `b < 256`, `b & 0x0F = b % 16`,
`(b & 0xF0) >> 4 = b / 16`, and `a << 8 | b << 4 | c` with 4-bit fields
`a, b, c` equals `a * 256 + b * 16 + c` (the OR of disjoint bit ranges).
Rust code that can panic (array indexing out of bounds, explicit
`panic!`) is embedded in `Except String`, errors modelling process
aborts.
-/

/-- `Display` from `display.rs`: `screen: [[bool; 64]; 32]`, row-major
(32 rows of 64 pixels). -/
structure Display where
  screen : Fin 32 → Fin 64 → Bool

/-- `Display::new`: all pixels off. -/
def Display.new : Display :=
  { screen := fun _ _ => false }

/-- `Display::clear`: `self.screen = [[false; 64]; 32]`. -/
def Display.clear (_ : Display) : Display :=
  { screen := fun _ _ => false }

/-- `Timer` from `timer.rs`: two `u8` countdown timers. -/
structure Timer where
  delay_timer : Nat
  sound_timer : Nat
  deriving DecidableEq

/-- `Timer::new`: both timers zero. -/
def Timer.new : Timer :=
  { delay_timer := 0, sound_timer := 0 }

/-- `Timer::cycle`: decrement `delay_timer` if positive; if `sound_timer`
is positive, call `beep()` and decrement it.  The second component of the
result counts the `beep()` calls performed by this cycle (the side effect
of `println!("BEEP")` is inert apart from its occurrence). -/
def Timer.cycle (t : Timer) : Timer × Nat :=
  let d := if t.delay_timer > 0 then t.delay_timer - 1 else t.delay_timer
  if t.sound_timer > 0 then
    ({ delay_timer := d, sound_timer := t.sound_timer - 1 }, 1)
  else
    ({ delay_timer := d, sound_timer := t.sound_timer }, 0)

/-- Modelled from the spec: `keyboard.rs` is not among the provided
sources; §3/§4.4 describe Keypad State as 16 boolean flags indexed
`0x0`–`0xF`, externally mutated and never mutated by the CPU core. -/
structure Keyboard where
  keys : Fin 16 → Bool

/-- Modelled from the spec: `Keyboard::new` produces the 16 key flags at
machine initialization, no key pressed. -/
def Keyboard.new : Keyboard :=
  { keys := fun _ => false }

/-- The `CHIP8` machine state from `main.rs`.  The Rust field `variable`
(the 16 `u8` registers `V0`–`VF`) is renamed `variable_reg` because
`variable` is a Lean keyword.  `memory` is the `[u8; 4096]` array,
`stack` the `TinyVec<[(u8, u8); 16]>` (a growable sequence of byte
pairs), `index` and `program_counter` are `u16`. -/
structure CHIP8 where
  memory : Fin 4096 → Nat
  display : Display
  stack : List (Nat × Nat)
  variable_reg : Fin 16 → Nat
  index : Nat
  timer : Timer
  keyboard : Keyboard
  program_counter : Nat

/-- `CHIP8::new`, parameterised by the font table.  `font.rs` is not
among the provided sources, so `FONT_SET` is an arbitrary 80-byte table
(spec §4.1: "a fixed 80-byte font glyph table (16 glyphs × 5 bytes)").
The Rust constructor zeroes `memory` and then runs
`for address in 0x50..=0x9F { memory[address] = FONT_SET[address - 0x50] }`;
the `memory` field below is the closed form of that loop's result. -/
def CHIP8.new (font : Fin 80 → Nat) : CHIP8 :=
  { memory := fun a =>
      if h : 0x50 ≤ a.val ∧ a.val ≤ 0x9F then
        font ⟨a.val - 0x50, by omega⟩
      else 0
    display := Display.new
    stack := []
    variable_reg := fun _ => 0
    index := 0
    timer := Timer.new
    keyboard := Keyboard.new
    program_counter := 0 }

/-- `CHIP8::fetch`: read `memory[program_counter]`, increment the `u16`
program counter, read again, increment again, return the two bytes.
Rust's `self.memory[pc as usize]` panics when `pc ≥ 4096` (the source
performs no modulo-4096 reduction); the increments are `u16` arithmetic
(`% 65536`). -/
def fetch (chip : CHIP8) : Except String ((Nat × Nat) × CHIP8) :=
  if h1 : chip.program_counter < 4096 then
    let instr_one := chip.memory ⟨chip.program_counter, h1⟩
    let pc1 := (chip.program_counter + 1) % 65536
    if h2 : pc1 < 4096 then
      let instr_two := chip.memory ⟨pc1, h2⟩
      Except.ok ((instr_one, instr_two),
        { chip with program_counter := (pc1 + 1) % 65536 })
    else Except.error "panic: index out of bounds"
  else Except.error "panic: index out of bounds"

/-- Decode field `itype`: `(instruction.0 & 0xF0) >> 4`, i.e. `b1 / 16`
for a byte `b1`. -/
def decode_itype (b1 : Nat) : Nat := b1 / 16

/-- Decode field `x`: `instruction.0 & 0x0F`, i.e. `b1 % 16`. -/
def decode_x (b1 : Nat) : Nat := b1 % 16

/-- Decode field `y`: `(instruction.1 & 0xF0) >> 4`, i.e. `b2 / 16` for a
byte `b2`. -/
def decode_y (b2 : Nat) : Nat := b2 / 16

/-- Decode field `n`: `instruction.1 & 0x0F`, i.e. `b2 % 16`. -/
def decode_n (b2 : Nat) : Nat := b2 % 16

/-- Decode field `nnn` exactly as the source recomposes it:
`(x as u16) << 8 | (y as u16) << 4 | (n as u16)`, an OR of disjoint bit
ranges, hence `x * 256 + y * 16 + n`. -/
def decode_nnn (b1 b2 : Nat) : Nat :=
  decode_x b1 * 256 + decode_y b2 * 16 + decode_n b2

/-- Follows the spec's words (§4.5 Decode): `nnn` is "the low 12 bits of
the instruction word, i.e. bits 0–11 of the full 16-bit word", taken from
the original word `b1 << 8 | b2` directly. -/
def decode_nnn_spec (b1 b2 : Nat) : Nat :=
  (b1 * 256 + b2) % 4096

/-- Read `self.variable[i]` with Rust's bounds check (panic when the
index is out of the 16-element array). -/
def readReg (chip : CHIP8) (i : Nat) : Except String Nat :=
  if h : i < 16 then Except.ok (chip.variable_reg ⟨i, h⟩)
  else Except.error "panic: index out of bounds"

/-- Write `self.variable[i] = v` with Rust's bounds check. -/
def writeReg (chip : CHIP8) (i : Nat) (v : Nat) : Except String CHIP8 :=
  if h : i < 16 then
    Except.ok { chip with
      variable_reg := Function.update chip.variable_reg ⟨i, h⟩ v }
  else Except.error "panic: index out of bounds"

/-- `CHIP8::decode_execute`.  The Rust `match itype` dispatch is embedded
as an equality chain over `decode_itype instr.1`; each branch mirrors the
corresponding match arm:
* `0x0`: `self.display.clear()`;
* `0x1`: `match nnn { _ => self.program_counter = nnn }`;
* `0x6`: `self.variable[x as usize] = nn` where `nn = instruction.1`;
* `0x7`: `if self.variable[0] == 0xFF { self.variable[x as usize] += nn }`
  (the `+=` is `u8` arithmetic, embedded wrapping as `% 256`; with debug
  overflow checks it would abort instead, which no claim below depends
  on);
* `0xA`: `self.index = nnn`;
* `0xD`: `println!("D")` — no state change;
* `_`: `panic!("error: unknown instruction {:x}", itype)`. -/
def decode_execute (chip : CHIP8) (instr : Nat × Nat) : Except String CHIP8 :=
  if decode_itype instr.1 = 0x0 then
    Except.ok { chip with display := chip.display.clear }
  else if decode_itype instr.1 = 0x1 then
    Except.ok { chip with program_counter := decode_nnn instr.1 instr.2 }
  else if decode_itype instr.1 = 0x6 then
    writeReg chip (decode_x instr.1) instr.2
  else if decode_itype instr.1 = 0x7 then
    match readReg chip 0 with
    | Except.error e => Except.error e
    | Except.ok v0 =>
      if v0 = 0xFF then
        match readReg chip (decode_x instr.1) with
        | Except.error e => Except.error e
        | Except.ok vx =>
          writeReg chip (decode_x instr.1) ((vx + instr.2) % 256)
      else Except.ok chip
  else if decode_itype instr.1 = 0xA then
    Except.ok { chip with index := decode_nnn instr.1 instr.2 }
  else if decode_itype instr.1 = 0xD then
    Except.ok chip
  else Except.error "panic: unknown instruction"

/-- A concrete font table used to instantiate witnesses. -/
def testFont : Fin 80 → Nat := fun i => i.val

/-- A machine holding a one-byte sprite `0xFF` at `memory[0]` (where the
fresh machine's index register points), used to exercise the draw
opcode. -/
def drawChip : CHIP8 :=
  { CHIP8.new testFont with
      memory := Function.update (CHIP8.new testFont).memory ⟨0, by norm_num⟩ 0xFF }

/-- A machine whose memory holds `0x60 0x0A` at `0x200..0x201` with the
program counter at `0x200`. -/
def demoChip : CHIP8 :=
  { CHIP8.new testFont with
      memory := Function.update (Function.update (CHIP8.new testFont).memory
        ⟨0x200, by norm_num⟩ 0x60) ⟨0x201, by norm_num⟩ 0x0A
      program_counter := 0x200 }

/-- `fetch` on an in-range program counter: helper characterising the
success path of `CHIP8::fetch`. -/
theorem fetch_ok (chip : CHIP8) (h : chip.program_counter + 1 < 4096) :
    fetch chip = Except.ok
      ((chip.memory ⟨chip.program_counter, by omega⟩,
        chip.memory ⟨chip.program_counter + 1, h⟩),
       { chip with program_counter := chip.program_counter + 2 }) := by
  unfold fetch
  rw [dif_pos (show chip.program_counter < 4096 by omega)]
  have h1 : (chip.program_counter + 1) % 65536 = chip.program_counter + 1 :=
    Nat.mod_eq_of_lt (by omega)
  simp only [h1]
  rw [dif_pos h]
  have h2 : (chip.program_counter + 1 + 1) % 65536 = chip.program_counter + 2 :=
    Nat.mod_eq_of_lt (by omega)
  simp only [h2]

/-- C4: the source's recomposition of `nnn` from the already-extracted
nibbles `x, y, n` equals bits 0–11 of the full 16-bit instruction word
(the spec-worded definition), for every two-byte instruction. -/
theorem nnn_recomposition_eq_low_bits (b1 b2 : Nat)
    (h1 : b1 < 256) (h2 : b2 < 256) :
    decode_nnn b1 b2 = decode_nnn_spec b1 b2 := by
  unfold decode_nnn decode_nnn_spec decode_x decode_y decode_n
  omega

theorem nnn_recomposition_eq_low_bits_witness :
    0xAB < 256 ∧ 0xCD < 256 ∧ decode_nnn 0xAB 0xCD = decode_nnn_spec 0xAB 0xCD :=
  ⟨by decide, by decide,
   nnn_recomposition_eq_low_bits 0xAB 0xCD (by decide) (by decide)⟩

/-- C5: one timer cycle decrements `delay_timer` by exactly one when
positive and leaves it at 0 otherwise, likewise `sound_timer` (no
underflow); exactly one beep is emitted per cycle in which the sound
counter was positive before decrementing.  Concretely: from
`delay=5, sound=0` five cycles reach delay 0 and a sixth leaves it 0;
from `sound=1` one cycle emits exactly one beep and leaves `sound=0`. -/
theorem timer_cycle_correct (t : Timer) :
    ((t.cycle).1.delay_timer = if 0 < t.delay_timer then t.delay_timer - 1 else 0) ∧
    ((t.cycle).1.sound_timer = if 0 < t.sound_timer then t.sound_timer - 1 else 0) ∧
    ((t.cycle).2 = if 0 < t.sound_timer then 1 else 0) ∧
    ((Timer.mk 5 0).cycle.1.cycle.1.cycle.1.cycle.1.cycle.1.delay_timer = 0) ∧
    ((Timer.mk 5 0).cycle.1.cycle.1.cycle.1.cycle.1.cycle.1.cycle.1.delay_timer = 0) ∧
    ((Timer.mk 0 1).cycle = (Timer.mk 0 0, 1)) := by
  refine ⟨?_, ?_, ?_, by decide, by decide, by decide⟩ <;>
    · by_cases hd : 0 < t.delay_timer <;> by_cases hs : 0 < t.sound_timer <;>
        simp [Timer.cycle, hd, hs] <;> omega

/-- C2 (code bug): on an instruction whose `itype` has no registered
handler — here `0x2000`, a call instruction — the source reaches the
wildcard arm `panic!("error: unknown instruction {:x}", itype)` and
aborts the whole process instead of reporting a recoverable
unimplemented-instruction condition to the caller. -/
theorem unknown_opcode_panics (chip : CHIP8) :
    decode_execute chip (0x20, 0x00) = Except.error "panic: unknown instruction" :=
  rfl

/-- C3 (code bug): `fetch` performs no modulo-4096 reduction.  At
`program_counter = 4095` the second read indexes `memory[4096]` and
panics; at `program_counter = 4096` the first read already panics; and
from `program_counter = 4094` the counter advances to `4096`, not to
`(4094 + 2) % 4096 = 0` as the wraparound claim would require. -/
theorem fetch_panics_out_of_range :
    fetch { CHIP8.new testFont with program_counter := 4095 } =
      Except.error "panic: index out of bounds" ∧
    fetch { CHIP8.new testFont with program_counter := 4096 } =
      Except.error "panic: index out of bounds" ∧
    (fetch { CHIP8.new testFont with program_counter := 4094 }).map
      (fun r => r.2.program_counter) = Except.ok 4096 :=
  ⟨rfl, rfl, rfl⟩

/-- C1 (code bug): on the fresh machine (`V0 = 0 ≠ 0xFF`), set-immediate
`V1 := 0x00` followed by add-immediate with operand `0x01` leaves
`V1 = 0`, not `(0 + 1) % 256 = 1`: the source's guard
`if self.variable[0] == 0xFF` blocks the addition. -/
theorem add_immediate_gated_on_v0 :
    ((decode_execute (CHIP8.new testFont) (0x61, 0x00)).bind
        (fun c => decode_execute c (0x71, 0x01))).map
        (fun c => c.variable_reg 1) = Except.ok 0 ∧
    (0 : Nat) ≠ (0 + 1) % 256 :=
  ⟨rfl, by decide⟩

/-- C8 (code bug): the draw arm is `println!("D")` — a complete no-op on
machine state.  With a sprite byte `0xFF` at `memory[index]`, executing
`0xD011` leaves the machine unchanged: pixel `(V[0], V[1]) = (0, 0)`
stays off and `V[0xF]` is not overwritten, where the claim requires the
sprite row to be XOR-drawn and the collision flag stored into `V[0xF]`. -/
theorem draw_opcode_is_noop :
    drawChip.index = 0 ∧
    drawChip.memory ⟨0, by norm_num⟩ = 0xFF ∧
    decode_execute drawChip (0xD0, 0x11) = Except.ok drawChip ∧
    (decode_execute drawChip (0xD0, 0x11)).map
      (fun c => c.display.screen 0 0) = Except.ok false :=
  ⟨rfl, rfl, rfl, rfl⟩

/-- C6: for every `nnn` in the 12-bit range, executing the jump opcode
`0x1NNN` sets the program counter to exactly `nnn` and mutates nothing
else — memory, registers, index, stack, display, timers and keyboard are
those of the input machine. -/
theorem jump_sets_pc_only (chip : CHIP8) (nnn : Nat) (h : nnn < 4096) :
    decode_execute chip (0x10 + nnn / 256, nnn % 256) =
      Except.ok { chip with program_counter := nnn } := by
  have hit : decode_itype (0x10 + nnn / 256) = 0x1 := by
    unfold decode_itype; omega
  have hnnn : decode_nnn (0x10 + nnn / 256) (nnn % 256) = nnn := by
    unfold decode_nnn decode_x decode_y decode_n; omega
  simp [decode_execute, hit, hnnn]

theorem jump_sets_pc_only_witness :
    0x234 < 4096 ∧
    decode_execute (CHIP8.new testFont) (0x10 + 0x234 / 256, 0x234 % 256) =
      Except.ok { CHIP8.new testFont with program_counter := 0x234 } :=
  ⟨by decide, jump_sets_pc_only (CHIP8.new testFont) 0x234 (by decide)⟩

/-- C9: the decoded register indices are single nibbles, hence `< 16`,
so the register-array accesses of the set-immediate and add-immediate
handlers are in bounds and `decode_execute` succeeds on those itypes. -/
theorem register_access_in_bounds (chip : CHIP8) (b1 b2 : Nat)
    (h1 : b1 < 256) (h2 : b2 < 256) :
    decode_x b1 < 16 ∧ decode_y b2 < 16 ∧
    ((decode_itype b1 = 0x6 ∨ decode_itype b1 = 0x7) →
      ∃ chip2, decode_execute chip (b1, b2) = Except.ok chip2) := by
  have hx : decode_x b1 < 16 := by unfold decode_x; omega
  have hy : decode_y b2 < 16 := by unfold decode_y; omega
  refine ⟨hx, hy, ?_⟩
  rintro (h6 | h7)
  · simp [decode_execute, h6, writeReg, hx]
  · by_cases hv : chip.variable_reg 0 = 0xFF <;>
      simp [decode_execute, h7, readReg, writeReg, hx, hv]

theorem register_access_in_bounds_witness :
    decode_x 0x71 < 16 ∧ decode_y 0xFF < 16 ∧
    ∃ chip2, decode_execute (CHIP8.new testFont) (0x71, 0xFF) = Except.ok chip2 :=
  ⟨(register_access_in_bounds (CHIP8.new testFont) 0x71 0xFF (by decide) (by decide)).1,
   (register_access_in_bounds (CHIP8.new testFont) 0x71 0xFF (by decide) (by decide)).2.1,
   (register_access_in_bounds (CHIP8.new testFont) 0x71 0xFF (by decide) (by decide)).2.2
     (Or.inr (by decide))⟩

/-- C7: with `0x60 0x0A` in memory at `0x200` and the program counter at
`0x200`, one fetch followed by decode/execute puts `0x0A` in `V[0]` and
leaves the program counter at `0x202`. -/
theorem fetch_then_set_immediate (chip : CHIP8)
    (h1 : chip.memory ⟨0x200, by norm_num⟩ = 0x60)
    (h2 : chip.memory ⟨0x201, by norm_num⟩ = 0x0A)
    (h3 : chip.program_counter = 0x200) :
    ∃ p, fetch chip = Except.ok p ∧
      ∃ chip2, decode_execute p.2 p.1 = Except.ok chip2 ∧
        chip2.variable_reg 0 = 0x0A ∧ chip2.program_counter = 0x202 := by
  have hpc : chip.program_counter + 1 < 4096 := by omega
  have hf := fetch_ok chip hpc
  have e1 : chip.memory ⟨chip.program_counter, by omega⟩ = 0x60 := by
    rw [← h1]; congr 1; exact Fin.ext h3
  have e2 : chip.memory ⟨chip.program_counter + 1, hpc⟩ = 0x0A := by
    rw [← h2]
    congr 1
    apply Fin.ext
    show chip.program_counter + 1 = 0x201
    omega
  rw [e1, e2] at hf
  refine ⟨_, hf, ?_⟩
  dsimp only
  refine ⟨_, rfl, ?_, ?_⟩
  · rfl
  · show chip.program_counter + 2 = 0x202
    omega

theorem fetch_then_set_immediate_witness :
    demoChip.memory ⟨0x200, by norm_num⟩ = 0x60 ∧
    demoChip.memory ⟨0x201, by norm_num⟩ = 0x0A ∧
    demoChip.program_counter = 0x200 ∧
    (∃ p, fetch demoChip = Except.ok p ∧
      ∃ chip2, decode_execute p.2 p.1 = Except.ok chip2 ∧
        chip2.variable_reg 0 = 0x0A ∧ chip2.program_counter = 0x202) :=
  ⟨rfl, rfl, rfl, fetch_then_set_immediate demoChip rfl rfl rfl⟩

/-- C10: the fresh machine has program counter 0 (not 0x200), index 0,
all registers 0, an empty stack, both timers 0, an all-off display, and
zeroed memory except `0x50..=0x9F`, which hold the 80 font bytes in
order. -/
theorem new_machine_initial_state (font : Fin 80 → Nat) :
    (CHIP8.new font).program_counter = 0 ∧
    (CHIP8.new font).index = 0 ∧
    (∀ i : Fin 16, (CHIP8.new font).variable_reg i = 0) ∧
    (CHIP8.new font).stack = [] ∧
    (CHIP8.new font).timer.delay_timer = 0 ∧
    (CHIP8.new font).timer.sound_timer = 0 ∧
    (∀ r : Fin 32, ∀ c : Fin 64, (CHIP8.new font).display.screen r c = false) ∧
    (∀ i : Fin 80,
      (CHIP8.new font).memory ⟨0x50 + i.val, by have := i.isLt; omega⟩ = font i) ∧
    (∀ a : Fin 4096, a.val < 0x50 ∨ 0x9F < a.val → (CHIP8.new font).memory a = 0) := by
  refine ⟨rfl, rfl, fun i => rfl, rfl, rfl, rfl, fun r c => rfl,
          fun i => ?_, fun a ha => ?_⟩
  · have hi := i.isLt
    simp only [CHIP8.new]
    rw [dif_pos ⟨by omega, by omega⟩]
    congr 1
    apply Fin.ext
    show 0x50 + i.val - 0x50 = i.val
    omega
  · simp only [CHIP8.new]
    rw [dif_neg (by omega)]

theorem new_machine_initial_state_witness :
    (CHIP8.new testFont).program_counter = 0 ∧
    (CHIP8.new testFont).memory ⟨0x50, by norm_num⟩ = testFont ⟨0, by norm_num⟩ ∧
    (CHIP8.new testFont).memory ⟨0x9F, by norm_num⟩ = testFont ⟨79, by norm_num⟩ ∧
    (CHIP8.new testFont).memory ⟨0x4F, by norm_num⟩ = 0 ∧
    (CHIP8.new testFont).memory ⟨0xA0, by norm_num⟩ = 0 :=
  ⟨(new_machine_initial_state testFont).1,
   (new_machine_initial_state testFont).2.2.2.2.2.2.2.1 ⟨0, by norm_num⟩,
   (new_machine_initial_state testFont).2.2.2.2.2.2.2.1 ⟨79, by norm_num⟩,
   (new_machine_initial_state testFont).2.2.2.2.2.2.2.2 ⟨0x4F, by norm_num⟩
     (Or.inl (by norm_num)),
   (new_machine_initial_state testFont).2.2.2.2.2.2.2.2 ⟨0xA0, by norm_num⟩
     (Or.inr (by norm_num))⟩
